import Mathlib

/-!
Verification of the rule-matching and reporting engine of the
as4-to-as6 migration analyzer.

The Python sources are shallowly embedded: file contents are Lean
`String`s (standing for the text produced by the permissive
`errors="ignore"` / `utils.read_file` decoding), the specific regular
expressions used by the matchers are implemented directly with Python
`re` semantics (leftmost search, non-overlapping `findall`, greedy /
non-greedy backtracking as each pattern requires), and the concurrent
scan is modelled by its observable result (each enumerated file
contributes its matcher output exactly once; completion order is not
observable in the aggregated list up to permutation, and the theorems
below only use order-insensitive statements where that matters).
-/

namespace Mig

/-- Python `\w` word character (ASCII range, as used by the inputs at issue). -/
def isWordChar (c : Char) : Bool := c.isAlphanum || c = '_'

/-- Python `\s` whitespace class. -/
def pyIsSpace (c : Char) : Bool :=
  c = ' ' || c = '\t' || c = '\n' || c = '\r' || c = '\x0b' || c = '\x0c'

/-- Character class `[\d.]` of the AutomationStudio version regex. -/
def isDigitDot (c : Char) : Bool := c.isDigit || c = '.'

/-- Word-ness of an optional character; absent (start/end of text) counts as non-word. -/
def optWordChar : Option Char → Bool
  | none => false
  | some c => isWordChar c

/-- Python `str.lower` (ASCII range). -/
def lowerStr (s : String) : String := String.mk (s.data.map Char.toLower)

/-- Python `str.upper` (ASCII range). -/
def pyUpper (s : String) : String := String.mk (s.data.map Char.toUpper)

/-- Python `pat in s` substring test, on character lists. -/
def listContains (pat : List Char) : List Char → Bool
  | [] => pat.isPrefixOf []
  | c :: rest => pat.isPrefixOf (c :: rest) || listContains pat rest

/-- Python `pat in s` substring test on strings. -/
def containsSubstr (s pat : String) : Bool := listContains pat.data s.data

/-- Python `str.startswith`. -/
def pyStartsWith (s pre : String) : Bool := pre.data.isPrefixOf s.data

/-- Python `str.endswith`. -/
def pyEndsWith (s suf : String) : Bool := suf.data.isSuffixOf s.data

/-- Consume a literal, returning the remainder on success. -/
def dropLit (lit cs : List Char) : Option (List Char) :=
  if lit.isPrefixOf cs then some (cs.drop lit.length) else none

/-- Leftmost `re.search`: try a matcher at every position, left to right. -/
def searchFirst {α : Type} (step : List Char → Option α) : List Char → Option α
  | [] => step []
  | c :: rest =>
    match step (c :: rest) with
    | some a => some a
    | none => searchFirst step rest

/-- Non-overlapping `re.findall`: on a match continue after it, otherwise
advance one character.  Every successful `step` consumes at least one
character, so fuel equal to the input length is enough. -/
def scanAll {α : Type} (step : List Char → Option (α × List Char)) : Nat → List Char → List α
  | 0, _ => []
  | _ + 1, [] => []
  | fuel + 1, c :: rest =>
    match step (c :: rest) with
    | some (a, remaining) => a :: scanAll step fuel remaining
    | none => scanAll step fuel rest

/-- Duplicate removal with set semantics (`list(set(...))` in the source;
the source's element order is unspecified, theorems use membership). -/
def dedupL {α : Type} [DecidableEq α] : List α → List α
  | [] => []
  | a :: rest =>
    let r := dedupL rest
    if a ∈ r then r else a :: r

/-! ## C1 — version-compatibility check (src/checks/file_compatibility.py)

`version_pattern = re.compile(r'AutomationStudio (?:Working)?Version="?([\d.]+)')`
-/

/-- The `"?([\d.]+)` tail of the version regex: an optional quote followed by a
non-empty run of digits and dots (group 1).  If the quote is consumed and no
digit/dot follows, the quote-less alternative also fails (a quote is not in
`[\d.]`), exactly as the backtracking engine behaves. -/
def versionDigitsAt (cs : List Char) : Option String :=
  let cs1 := match cs with
    | '"' :: rest => rest
    | _ => cs
  let run := cs1.takeWhile isDigitDot
  if run.isEmpty then none else some (String.mk run)

/-- Match `AutomationStudio (?:Working)?Version="?([\d.]+)` anchored at the
start of `cs`, with the greedy optional `Working` tried first. -/
def matchVersionAt (cs : List Char) : Option String :=
  match dropLit ("AutomationStudio ").data cs with
  | none => none
  | some cs1 =>
    let withWorking :=
      match dropLit ("Working").data cs1 with
      | none => none
      | some cs2 =>
        match dropLit ("Version=").data cs2 with
        | none => none
        | some cs3 => versionDigitsAt cs3
    match withWorking with
    | some v => some v
    | none =>
      match dropLit ("Version=").data cs1 with
      | none => none
      | some cs3 => versionDigitsAt cs3

/-- `version_pattern.search(content)`, returning group 1. -/
def version_search (content : String) : Option String :=
  searchFirst matchVersionAt content.data

/-- `check_file_version` (src/checks/file_compatibility.py, lines 10-25):
the required version prefix is the literal `"4.12"`; the per-file result set
holds at most one pair, rendered here as a list. -/
def check_file_version (file_path content : String) : List (String × String) :=
  match version_search content with
  | some v => if pyStartsWith v ("4.12") then [] else [(file_path, v)]
  | none => [(file_path, ("Version Unknown"))]

/-- `scan_files_parallel` in single-matcher mode: every enumerated file
(path paired with its decoded content) contributes its matcher output exactly
once; results are concatenated. -/
def scan_files_parallel {α : Type} (files : List (String × String))
    (f : String → String → List α) : List α :=
  (files.map (fun pc => f pc.1 pc.2)).flatten

/-- `check_files_for_compatibility` (src/checks/file_compatibility.py,
lines 39-40): one scan over the project's `.apj` files plus one scan over the
`Physical` tree's `.hw` files, concatenated into a single batch. -/
def check_files_for_compatibility (apj_files hw_files : List (String × String)) :
    List (String × String) :=
  scan_files_parallel apj_files check_file_version ++
    scan_files_parallel hw_files check_file_version

/-- One call to the reporter: message, severity tag, version ("when") tag. -/
structure LogCall where
  msg : String
  sev : String
  when_tag : String
deriving DecidableEq

/-- The joined `- {file_path}: {version}` block (`output[1:]` in the source). -/
def render_compat_results (results : List (String × String)) : String :=
  (results.foldl (fun acc fv => acc ++ "\n- " ++ fv.1 ++ ": " ++ fv.2) ("")).drop 1

/-- The reporting block of `check_files_for_compatibility`
(src/checks/file_compatibility.py, lines 41-56): batch-then-report. -/
def compat_version_report (results : List (String × String)) (verbose : Bool) :
    List LogCall :=
  if results.isEmpty then
    if verbose then
      [⟨("All project and hardware files are valid."), ("VERBOSE"), ("")⟩]
    else []
  else
    [⟨("The following files are incompatible with the required version:"), ("MANDATORY"), ("")⟩,
     ⟨render_compat_results results, (""), ("")⟩,
     ⟨("Please ensure these files are saved at least once with Automation Studio 4.12"),
       ("MANDATORY"), ("")⟩]

/-! ## C2 — whole-word source matcher (src/checks/deprecated_functions.py
`process_st_c_file`, lines 175-198; identical copy in
src/as4_to_as6_analyzer.py, lines 199-225) -/

/-- One attempt of `\b pat \b` anchored at the current position, given the
character immediately before that position. -/
def wholeWordAt (pat : List Char) (prev : Option Char) (cs : List Char) : Bool :=
  match pat with
  | [] => optWordChar prev != optWordChar cs.head?
  | p :: _ =>
    pat.isPrefixOf cs
      && (optWordChar prev != isWordChar p)
      && (optWordChar pat.getLast? != optWordChar ((cs.drop pat.length).head?))

/-- Scan for `\b pat \b` tracking the previous character. -/
def wwGo (pat : List Char) : Option Char → List Char → Bool
  | prev, [] => wholeWordAt pat prev []
  | prev, c :: rest => wholeWordAt pat prev (c :: rest) || wwGo pat (some c) rest

/-- `re.search(rf"\b{re.escape(pattern)}\b", content)` as a Boolean:
case-sensitive whole-word occurrence. -/
def whole_word_search (pat text : String) : Bool :=
  wwGo pat.data none text.data

/-- The pattern loop of `process_st_c_file`: `matched_files` can only ever
contain the one `file_path` being processed, so it is a Boolean flag; once it
is set, the `file_path not in matched_files` conjunct blocks every later
pattern. -/
def stcLoop (file_path content : String) :
    List (String × String) → List (String × String × String) → Bool →
      List (String × String × String)
  | [], acc, _ => acc
  | pr :: rest, acc, flag =>
    if whole_word_search pr.1 content && !flag then
      stcLoop file_path content rest (acc ++ [(pr.1, pr.2, file_path)]) true
    else
      stcLoop file_path content rest acc flag

/-- `process_st_c_file(file_path, patterns)` applied to the file's content. -/
def process_st_c_file (file_path content : String) (patterns : List (String × String)) :
    List (String × String × String) :=
  stcLoop file_path content patterns [] false

/-! ## C8 — package-descriptor matcher (src/checks/library_check.py
`process_pkg_file`, lines 8-28; identical copy in src/as4_to_as6_analyzer.py,
lines 128-148) -/

/-- State machine for `re.findall(r">([^<]+)<", content)`: `none` is the
scanning state, `some acc` collects a candidate group (reversed) after a `>`.
An empty group (a `>` directly followed by `<`) is not a match and scanning
resumes at the `<`. -/
def angleGo : Option (List Char) → List Char → List String
  | _, [] => []
  | none, c :: rest => if c = '>' then angleGo (some []) rest else angleGo none rest
  | some acc, c :: rest =>
    if c = '<' then
      match acc with
      | [] => angleGo none rest
      | _ => String.mk acc.reverse :: angleGo none rest
    else angleGo (some (c :: acc)) rest

/-- All texts between `>` and `<` (`re.findall(r">([^<]+)<", content)`). -/
def extract_angle (content : String) : List String := angleGo none content.data

/-- `process_pkg_file(file_path, patterns)` applied to the file's content:
each extracted text is compared case-insensitively against every rule key. -/
def process_pkg_file (file_path content : String) (patterns : List (String × String)) :
    List (String × String × String) :=
  (extract_angle content).flatMap (fun m =>
    patterns.flatMap (fun pr =>
      if lowerStr m = lowerStr pr.1 then [(pr.1, pr.2, file_path)] else []))

/-! ## C3 — FTP-configuration matcher (src/checks/file_device_check.py
`process_ftp_configurations`, lines 32-53; identical copy in
src/as4_to_as6_analyzer.py, lines 277-300) -/

/-- Mandatory whitespace `\s+`: the following regex piece is a literal that
starts with a non-space character, so the greedy run needs no backtracking. -/
def wsPlus (cs : List Char) : Option (List Char × List Char) :=
  let ws := cs.takeWhile pyIsSpace
  if ws.isEmpty then none else some (ws, cs.drop ws.length)

/-- Match `<Parameter ID="ActivateFtpServer"\s+Value="(\d)" />` anchored at
the start, returning (group 0 = the whole matched text, group 1 = the digit).
The source inspects group 0. -/
def matchActivateAt (cs : List Char) : Option (String × Char) :=
  match dropLit ("<Parameter ID=\"ActivateFtpServer\"").data cs with
  | none => none
  | some cs1 =>
    match wsPlus cs1 with
    | none => none
    | some (ws, cs2) =>
      match dropLit ("Value=\"").data cs2 with
      | none => none
      | some cs3 =>
        match cs3 with
        | [] => none
        | d :: cs4 =>
          if d.isDigit then
            match dropLit ("\" />").data cs4 with
            | none => none
            | some _ =>
              some (String.mk (("<Parameter ID=\"ActivateFtpServer\"").data ++ ws ++
                ("Value=\"").data ++ [d] ++ ("\" />").data), d)
          else none

/-- `re.search` for the ActivateFtpServer parameter. -/
def ftp_activate_search (content : String) : Option (String × Char) :=
  searchFirst matchActivateAt content.data

/-- Non-greedy `(.*?)` up to the literal `stop` (Python `.` excludes `'\n'`);
used where nothing follows the stop literal, so the first occurrence wins. -/
def captureTo (stop : List Char) : List Char → Option (List Char × List Char)
  | [] => none
  | c :: rest =>
    if stop.isPrefixOf (c :: rest) then some ([], (c :: rest).drop stop.length)
    else if c = '\n' then none
    else
      match captureTo stop rest with
      | some (cap, r) => some (c :: cap, r)
      | none => none

/-- Match `<Parameter ID="FTPMSPartition\d+"\s+Value="(.*?)" />` anchored at
the start, returning group 1 and the remainder. -/
def matchPartitionAt (cs : List Char) : Option (String × List Char) :=
  match dropLit ("<Parameter ID=\"FTPMSPartition").data cs with
  | none => none
  | some cs1 =>
    let ds := cs1.takeWhile Char.isDigit
    if ds.isEmpty then none else
    match dropLit ("\"").data (cs1.drop ds.length) with
    | none => none
    | some cs2 =>
      match wsPlus cs2 with
      | none => none
      | some (_, cs3) =>
        match dropLit ("Value=\"").data cs3 with
        | none => none
        | some cs4 =>
          match captureTo ("\" />").data cs4 with
          | none => none
          | some (cap, rest) => some (String.mk cap, rest)

/-- `re.findall` of the FTPMSPartition parameter values. -/
def extract_ftp_partitions (content : String) : List String :=
  scanAll matchPartitionAt content.data.length content.data

/-- `process_ftp_configurations(file_path)` applied to the file's content.
Every tuple the source adds to its result set is exactly
`("SYSTEM", file_path)`, so the set is empty or that singleton. -/
def process_ftp_configurations (file_path content : String) : List (String × String) :=
  let active_check :=
    match ftp_activate_search content with
    | none => true
    | some (g0, _) => g0 == ("1")
  if active_check then
    if (extract_ftp_partitions content).any (fun m => m = ("SYSTEM")) then
      [(("SYSTEM"), file_path)]
    else []
  else []

/-! ## C9 — file-device matcher (src/checks/file_device_check.py
`process_file_devices`, lines 8-29; identical copy in
src/as4_to_as6_analyzer.py, lines 253-274) -/

/-- The part of the file-device regex after the FileDeviceName value's
opening quote has been reached and a candidate end `" />` taken:
`\s*<Parameter ID="FileDevicePath\d+" Value="(.*?)" />`. -/
def matchAfterName (cs : List Char) : Option (List Char × List Char) :=
  let cs1 := cs.drop (cs.takeWhile pyIsSpace).length
  match dropLit ("<Parameter ID=\"FileDevicePath").data cs1 with
  | none => none
  | some cs2 =>
    let ds := cs2.takeWhile Char.isDigit
    if ds.isEmpty then none else
    match dropLit ("\" Value=\"").data (cs2.drop ds.length) with
    | none => none
    | some cs3 => captureTo ("\" />").data cs3

/-- Non-greedy name capture `(.*?)" />` with backtracking: at each occurrence
of `" />` try the rest of the regex; if it fails, the quote becomes part of
the capture and scanning continues (never across `'\n'`). -/
def findName : List Char → List Char → Option (List Char × List Char × List Char)
  | _, [] => none
  | acc, c :: rest =>
    if ("\" />").data.isPrefixOf (c :: rest) then
      match matchAfterName ((c :: rest).drop 4) with
      | some (p, r) => some (acc.reverse, p, r)
      | none => if c = '\n' then none else findName (c :: acc) rest
    else if c = '\n' then none
    else findName (c :: acc) rest

/-- Match the full file-device triple
`<Group ID="FileDevice\d+" />\s*<Parameter ID="FileDeviceName\d+" Value="(.*?)" />\s*<Parameter ID="FileDevicePath\d+" Value="(.*?)" />`
anchored at the start, returning ((name, path), remainder). -/
def matchTripleAt (cs : List Char) : Option ((String × String) × List Char) :=
  match dropLit ("<Group ID=\"FileDevice").data cs with
  | none => none
  | some cs1 =>
    let ds := cs1.takeWhile Char.isDigit
    if ds.isEmpty then none else
    match dropLit ("\" />").data (cs1.drop ds.length) with
    | none => none
    | some cs2 =>
      let cs3 := cs2.drop (cs2.takeWhile pyIsSpace).length
      match dropLit ("<Parameter ID=\"FileDeviceName").data cs3 with
      | none => none
      | some cs4 =>
        let ds2 := cs4.takeWhile Char.isDigit
        if ds2.isEmpty then none else
        match dropLit ("\" Value=\"").data (cs4.drop ds2.length) with
        | none => none
        | some cs5 =>
          match findName [] cs5 with
          | none => none
          | some (nm, pth, rest) => some ((String.mk nm, String.mk pth), rest)

/-- `re.findall` of all (FileDeviceName value, FileDevicePath value) pairs. -/
def extract_file_devices (content : String) : List (String × String) :=
  scanAll matchTripleAt content.data.length content.data

/-- The source's `exclude` list. -/
def drive_letter_excludes : List String := [("C:\\"), ("D:\\"), ("E:\\"), ("F:\\")]

/-- `any(path.lower().startswith(exclusion.lower()) for exclusion in exclude)`. -/
def starts_with_drive (path : String) : Bool :=
  drive_letter_excludes.any (fun ex => pyStartsWith (lowerStr path) (lowerStr ex))

/-- `process_file_devices(file_path)` applied to the file's content
(result set rendered as a duplicate-free list; order is unspecified in the
source, theorems below use membership). -/
def process_file_devices (file_path content : String) : List (String × String × String) :=
  dedupL (((extract_file_devices content).filter (fun np => starts_with_drive np.2)).map
    (fun np => (np.1, np.2, file_path)))

/-! ## C4 — project-root validation (src/as4_to_as6_analyzer.py
`get_project_file`, lines 418-445; src/utils/utils.py
`get_and_check_project_file`, lines 168-190) -/

/-- `os.path.basename` for the path separators in play. -/
def basenameGo : List Char → List Char → List Char
  | acc, [] => acc.reverse
  | acc, c :: rest =>
    if c = '/' || c = '\\' then basenameGo [] rest else basenameGo (c :: acc) rest

/-- `os.path.basename`. -/
def basename (p : String) : String := String.mk (basenameGo [] p.data)

/-- `get_project_file`: `path_exists` models `os.path.exists`, `entries` the
`os.listdir` listing; `sys.exit(1)` is the error value. -/
def get_project_file (path_exists : Bool) (entries : List String) : Except Nat String :=
  if path_exists then
    match entries.filter (fun f => pyEndsWith f (".apj")) with
    | [] => Except.error 1
    | f :: _ => Except.ok f
  else Except.error 1

/-- `get_and_check_project_file`: `entries` models the directory listing seen
by `project_path.glob("*.apj")` (which skips dot-files and keeps `.apj`
names); `next(...)` takes the first match, `os.path.basename` is applied. -/
def get_and_check_project_file (path_exists : Bool) (entries : List String) :
    Except Nat String :=
  if path_exists then
    match entries.filter (fun f => pyEndsWith f (".apj") && !pyStartsWith f (".")) with
    | [] => Except.error 1
    | f :: _ => Except.ok (basename f)
  else Except.error 1

/-! ## C5 — rule-table loading (src/utils/utils.py `load_file_info`,
lines 301-310; src/as4_to_as6_analyzer.py module-level loader, lines 31-42) -/

/-- A rule table: pattern key paired with a human-readable reason. -/
abbrev RuleTable := List (String × String)

/-- `load_file_info`: `doc` is the outcome of opening and JSON-decoding the
named file; on any exception the function logs an ERROR and returns `{}`. -/
def load_file_info (doc : Except String RuleTable) : RuleTable :=
  match doc with
  | Except.ok t => t
  | Except.error _ => []

/-- The analyzer's module-level discontinuation loader: the first failing
document aborts the process with exit status 1. -/
def analyzer_load_tables : List (Except String RuleTable) → Except Nat (List RuleTable)
  | [] => Except.ok []
  | d :: rest =>
    match d with
    | Except.error _ => Except.error 1
    | Except.ok t =>
      match analyzer_load_tables rest with
      | Except.ok ts => Except.ok (t :: ts)
      | Except.error n => Except.error n

/-! ## C6 — fault behaviour of the scan (src/utils/utils.py
`scan_files_parallel`, lines 251-294; src/as4_to_as6_analyzer.py, lines
91-125).  A matcher that raises makes `future.result()` re-raise inside the
aggregation loop; there is no try/except around it, so the whole scan raises. -/

/-- True on `Except.error`. -/
def isErr {ε α : Type} : Except ε α → Bool
  | Except.error _ => true
  | Except.ok _ => false

/-- One aggregation step of the scan: `results.extend(future.result())`,
where a raised exception (an `Except.error`) propagates. -/
def scanExcStep {α : Type} (f : String → String → Except String (List α))
    (acc : Except String (List α)) (pc : String × String) : Except String (List α) :=
  match acc with
  | Except.error e => Except.error e
  | Except.ok rs =>
    match f pc.1 pc.2 with
    | Except.ok r => Except.ok (rs ++ r)
    | Except.error e => Except.error e

/-- The scan with possibly-raising matchers: results are extended file by
file; the first raising matcher propagates out of the scan. -/
def scan_files_parallel_exc {α : Type} (files : List (String × String))
    (f : String → String → Except String (List α)) : Except String (List α) :=
  files.foldl (scanExcStep f) (Except.ok [])

/-! ## C7 / C10 — the logging entry point (src/utils/utils.py `log`,
lines 131-165, with `linkify` lines 120-128, `url` lines 99-100,
`extract_urls` lines 110-117).  The known-link keys come from the external
`links` data file and are passed in as a parameter. -/

/-- `ConsoleColors.RESET`. -/
def CC_RESET : String := "\x1b[0m"

/-- `ConsoleColors.MANDATORY`. -/
def CC_MANDATORY : String := "\x1b[1;31m"

/-- `ConsoleColors.WARNING`. -/
def CC_WARNING : String := "\x1b[1;33m"

/-- `ConsoleColors.INFO`. -/
def CC_INFO : String := "\x1b[92m"

/-- `ConsoleColors.UNDERLINE`. -/
def CC_UNDERLINE : String := "\x1b[4;94m"

/-- `url(text)`: wrap in ANSI underline styling. -/
def url (text : String) : String := CC_UNDERLINE ++ text ++ CC_RESET

/-- Characters allowed in the URL host run `[a-zA-Z0-9\-._~%]`. -/
def isUrlBodyChar (c : Char) : Bool :=
  c.isAlpha || c.isDigit || c = '-' || c = '.' || c = '_' || c = '~' || c = '%'

/-- Word-boundary test between a known last character and an optional next. -/
def wordB (l : Char) (r : Option Char) : Bool := isWordChar l != optWordChar r

/-- Backtracking for the optional `\/[^\s]*` tail followed by `\b`:
`tail` is the text after the `/`, and the counter is the candidate length of
`[^\s]*`, tried greedily from the maximal run downwards. -/
def urlSlashGo (tail : List Char) : Nat → Option Nat
  | 0 => if wordB ('/') tail.head? then some 0 else none
  | j + 1 =>
    match tail.get? j with
    | none => urlSlashGo tail j
    | some lc =>
      if wordB lc ((tail.drop (j + 1)).head?) then some (j + 1) else urlSlashGo tail j

/-- After the top-level-domain letters (whose last character is a letter):
the optional `(?:\/[^\s]*)?` group, tried greedily, then the closing `\b`.
Returns the extra consumed characters and the remainder. -/
def urlTail (cs : List Char) : Option (List Char × List Char) :=
  match cs with
  | '/' :: tail =>
    (match urlSlashGo tail (tail.takeWhile (fun c => !pyIsSpace c)).length with
     | some j => some ('/' :: tail.take j, tail.drop j)
     | none => some ([], cs))
  | _ => if optWordChar cs.head? then none else some ([], cs)

/-- Greedy `[a-zA-Z]{2,}` (candidate length counted down, minimum 2) followed
by `urlTail`; `cs3` starts at the characters after the dot. -/
def urlAlphaGo (cs3 : List Char) : Nat → Option (List Char × List Char)
  | 0 => none
  | 1 => none
  | m + 2 =>
    match urlTail (cs3.drop (m + 2)) with
    | some (extra, rest) => some (cs3.take (m + 2) ++ extra, rest)
    | none =>
      match m with
      | 0 => none
      | m' + 1 => urlAlphaGo cs3 (m' + 2)

/-- Greedy `[a-zA-Z0-9\-._~%]+` (candidate length counted down, minimum 1)
followed by `\.` and `urlAlphaGo`; `cs` starts at the host text. -/
def urlDotGo (cs : List Char) : Nat → Option (List Char × List Char)
  | 0 => none
  | k + 1 =>
    (match cs.drop (k + 1) with
     | '.' :: cs3 =>
       (match urlAlphaGo cs3 (cs3.takeWhile Char.isAlpha).length with
        | some (consumed2, rest) => some (cs.take (k + 1) ++ '.' :: consumed2, rest)
        | none => urlDotGo cs k)
     | _ => urlDotGo cs k)

/-- Host-and-tail matching starting at `cs4`:
`[a-zA-Z0-9\-._~%]+(?:\.[a-zA-Z]{2,})(?:\/[^\s]*)?\b`. -/
def urlHostAt (cs4 : List Char) : Option (List Char × List Char) :=
  urlDotGo cs4 (cs4.takeWhile isUrlBodyChar).length

/-- The scheme characters actually consumed. -/
def schemeChars (hasS : Bool) : List Char :=
  ("http").data ++ (if hasS then [('s')] else []) ++ ("://").data

/-- Match the URL regex
`\bhttps?:\/\/(?:www\.)?[a-zA-Z0-9\-._~%]+(?:\.[a-zA-Z]{2,})(?:\/[^\s]*)?\b`
anchored at the start of `cs`, `prev` being the character before it. -/
def matchUrlAt (prev : Option Char) (cs : List Char) : Option (List Char × List Char) :=
  if optWordChar prev then none
  else
    match dropLit ("http").data cs with
    | none => none
    | some cs1 =>
      let afterScheme : Option (Bool × List Char) :=
        match cs1 with
        | 's' :: cs2 =>
          (match dropLit ("://").data cs2 with
           | some cs3 => some (true, cs3)
           | none =>
             match dropLit ("://").data cs1 with
             | some cs3 => some (false, cs3)
             | none => none)
        | _ =>
          (match dropLit ("://").data cs1 with
           | some cs3 => some (false, cs3)
           | none => none)
      match afterScheme with
      | none => none
      | some (hasS, cs3) =>
        let withWww :=
          match dropLit ("www.").data cs3 with
          | none => none
          | some cs4 =>
            match urlHostAt cs4 with
            | some (consumed, rest) => some (("www.").data ++ consumed, rest)
            | none => none
        match withWww with
        | some (consumed, rest) => some (schemeChars hasS ++ consumed, rest)
        | none =>
          match urlHostAt cs3 with
          | some (consumed, rest) => some (schemeChars hasS ++ consumed, rest)
          | none => none

/-- `re.findall` driver for `extract_urls`, tracking the previous character
for the leading `\b`. -/
def extractUrlsGo (prev : Option Char) : Nat → List Char → List String
  | 0, _ => []
  | _ + 1, [] => []
  | fuel + 1, c :: rest =>
    match matchUrlAt prev (c :: rest) with
    | some (consumed, remaining) =>
      String.mk consumed :: extractUrlsGo consumed.getLast? fuel remaining
    | none => extractUrlsGo (some c) fuel rest

/-- `extract_urls(text)`. -/
def extract_urls (text : String) : List String :=
  extractUrlsGo none text.data.length text.data

/-- `str.replace` for a non-empty pattern: non-overlapping, left to right. -/
def replaceAllAux (pat repl : List Char) : Nat → List Char → List Char
  | 0, cs => cs
  | _ + 1, [] => []
  | fuel + 1, c :: rest =>
    if pat.isPrefixOf (c :: rest) then
      repl ++ replaceAllAux pat repl fuel ((c :: rest).drop pat.length)
    else c :: replaceAllAux pat repl fuel rest

/-- Python `s.replace(pat, repl)` (empty pattern inserts everywhere). -/
def pyReplace (s pat repl : String) : String :=
  match pat.data with
  | [] => String.mk (repl.data ++ s.data.flatMap (fun c => c :: repl.data))
  | _ :: _ => String.mk (replaceAllAux pat.data repl.data s.data.length s.data)

/-- `linkify(text)`: known-link keys first, then every extracted URL, each
replaced by its underline-styled rendering. -/
def linkify (links : List String) (text : String) : String :=
  let t1 := links.foldl (fun t l => if listContains l.data t.data then pyReplace t l (url l) else t) text
  (extract_urls t1).foldl (fun t u => pyReplace t u (url u)) t1

/-- Where the console line of a `log` call goes. -/
inductive OutStream
  | stdout
  | stderr
deriving DecidableEq

/-- Observable output of one `log` call. -/
structure LogOutput where
  console : String
  stream : OutStream
  file_line : Option String
deriving DecidableEq

/-- The message after `linkify` and the optional `[when]` tag. -/
def log_message_tagged (links : List String) (message when_tag : String) : String :=
  let m := linkify links message
  if when_tag = ("") then m else ("[") ++ when_tag ++ ("] ") ++ m

/-- The colour-highlighted severity tag used on the console. -/
def colored_severity (severity : String) : String :=
  if pyUpper severity = ("MANDATORY") || pyUpper severity = ("ERROR") then
    CC_MANDATORY ++ ("[") ++ severity ++ ("]") ++ CC_RESET
  else if pyUpper severity = ("WARNING") then
    CC_WARNING ++ ("[") ++ severity ++ ("]") ++ CC_RESET
  else if pyUpper severity = ("INFO") then
    CC_INFO ++ ("[") ++ severity ++ ("]") ++ CC_RESET
  else ("[") ++ severity ++ ("]")

/-- `log(message, log_file, when, severity)`: the console line is prefixed
with a newline by `print`; the file line (present when a log file is open)
is the uncoloured-severity twin with a trailing newline. -/
def log (links : List String) (message : String) (has_log_file : Bool)
    (when_tag severity : String) : LogOutput :=
  let m := log_message_tagged links message when_tag
  let console_message :=
    if severity = ("") then m else colored_severity severity ++ (" ") ++ m
  let file_message :=
    if severity = ("") then m else ("[") ++ severity ++ ("] ") ++ m
  { console := ("\n") ++ console_message
    stream := if pyUpper severity = ("ERROR") then OutStream.stderr else OutStream.stdout
    file_line := if has_log_file then some (file_message ++ ("\n")) else none }

/-- No ANSI escape character occurs in the string. -/
def noEsc (s : String) : Bool := s.data.all (fun c => c != '\x1b')

/-! ## Test fixtures (concrete file contents used in the theorems) -/

/-- A `.hw` content with the FTP server explicitly activated (`Value="1"`)
and a literal SYSTEM partition reference. -/
def ftp_hw_active : String :=
  ("<Parameter ID=\"ActivateFtpServer\" Value=\"1\" />\n<Parameter ID=\"FTPMSPartition1\" Value=\"SYSTEM\" />")

/-- A `.hw` content with the FTP server explicitly deactivated (`Value="0"`)
and a literal SYSTEM partition reference. -/
def ftp_hw_inactive : String :=
  ("<Parameter ID=\"ActivateFtpServer\" Value=\"0\" />\n<Parameter ID=\"FTPMSPartition1\" Value=\"SYSTEM\" />")

/-- A `.hw` content with no ActivateFtpServer parameter at all and a literal
SYSTEM partition reference. -/
def ftp_hw_absent : String :=
  ("<Parameter ID=\"FTPMSPartition1\" Value=\"SYSTEM\" />")

/-- A `.hw` content with four file devices: a `C:\` path, a `USER_PATH:`
path, a path under the literal `Temp\Simulation`, and a lower-case `f:\`
path. -/
def hw_file_devices : String :=
  ("<Group ID=\"FileDevice1\" />\n<Parameter ID=\"FileDeviceName1\" Value=\"DevC\" />\n<Parameter ID=\"FileDevicePath1\" Value=\"C:\\Temp\\x\" />\n<Group ID=\"FileDevice2\" />\n<Parameter ID=\"FileDeviceName2\" Value=\"DevU\" />\n<Parameter ID=\"FileDevicePath2\" Value=\"USER_PATH:\\x\" />\n<Group ID=\"FileDevice3\" />\n<Parameter ID=\"FileDeviceName3\" Value=\"DevT\" />\n<Parameter ID=\"FileDevicePath3\" Value=\"Temp\\Simulation\\y\" />\n<Group ID=\"FileDevice4\" />\n<Parameter ID=\"FileDeviceName4\" Value=\"DevF\" />\n<Parameter ID=\"FileDevicePath4\" Value=\"f:\\data\" />")

/-! ## Helper lemmas -/

/-- Once the per-file flag of `process_st_c_file` is set, no further pattern
can contribute. -/
theorem stcLoop_flag_true (fp content : String) :
    ∀ (pats : List (String × String)) (acc : List (String × String × String)),
      stcLoop fp content pats acc true = acc := by
  intro pats
  induction pats with
  | nil => intro acc; rfl
  | cons pr rest ih =>
    intro acc
    simp [stcLoop, ih]

/-- The pattern loop of `process_st_c_file` keeps only the first whole-word
match of the table. -/
theorem stcLoop_eq_find (fp content : String) :
    ∀ (pats : List (String × String)) (acc : List (String × String × String)),
      stcLoop fp content pats acc false =
        acc ++
          (match pats.find? (fun pr => whole_word_search pr.1 content) with
           | some pr => [(pr.1, pr.2, fp)]
           | none => []) := by
  intro pats
  induction pats with
  | nil => intro acc; simp [stcLoop, List.find?]
  | cons pr rest ih =>
    intro acc
    by_cases h : whole_word_search pr.1 content = true
    · simp [stcLoop, h, List.find?, stcLoop_flag_true]
    · have h' : whole_word_search pr.1 content = false := by
        cases hww : whole_word_search pr.1 content
        · rfl
        · exact absurd hww h
      simp [stcLoop, h', List.find?, ih]

/-- Membership is preserved by `dedupL`. -/
theorem mem_dedupL {α : Type} [DecidableEq α] (x : α) :
    ∀ l : List α, x ∈ dedupL l ↔ x ∈ l := by
  intro l
  induction l with
  | nil => simp [dedupL]
  | cons a rest ih =>
    by_cases ha : a ∈ dedupL rest
    · simp only [dedupL, if_pos ha]
      constructor
      · intro hx; exact List.mem_cons_of_mem a (ih.mp hx)
      · intro hx
        rcases List.mem_cons.mp hx with hx | hx
        · exact hx ▸ ha
        · exact ih.mpr hx
    · simp only [dedupL, if_neg ha]
      constructor
      · intro hx
        rcases List.mem_cons.mp hx with hx | hx
        · exact hx ▸ List.mem_cons_self a rest
        · exact List.mem_cons_of_mem a (ih.mp hx)
      · intro hx
        rcases List.mem_cons.mp hx with hx | hx
        · exact hx ▸ List.mem_cons_self a (dedupL rest)
        · exact List.mem_cons_of_mem a (ih.mpr hx)

/-- `searchFirst` only returns values produced by its step matcher. -/
theorem searchFirst_prop {α : Type} (P : α → Prop) (step : List Char → Option α)
    (hstep : ∀ cs a, step cs = some a → P a) :
    ∀ cs a, searchFirst step cs = some a → P a := by
  intro cs
  induction cs with
  | nil => intro a h; exact hstep [] a h
  | cons c rest ih =>
    intro a h
    unfold searchFirst at h
    cases hs : step (c :: rest) with
    | some b =>
      rw [hs] at h
      cases h
      exact hstep _ _ hs
    | none =>
      rw [hs] at h
      exact ih a h

/-- Whatever `matchActivateAt` matches starts with the character `<`. -/
theorem matchActivateAt_head (cs : List Char) (r : String × Char)
    (h : matchActivateAt cs = some r) : r.1.data.head? = some ('<') := by
  unfold matchActivateAt at h
  cases h1 : dropLit (("<Parameter ID=\"ActivateFtpServer\"").data) cs with
  | none => simp only [h1] at h; exact absurd h (by simp)
  | some cs1 =>
    simp only [h1] at h
    cases h2 : wsPlus cs1 with
    | none => simp only [h2] at h; exact absurd h (by simp)
    | some p =>
      simp only [h2] at h
      obtain ⟨ws, cs2⟩ := p
      cases h3 : dropLit (("Value=\"").data) cs2 with
      | none => simp only [h3] at h; exact absurd h (by simp)
      | some cs3 =>
        simp only [h3] at h
        cases cs3 with
        | nil => exact absurd h (by simp)
        | cons d cs4 =>
          by_cases hd : d.isDigit = true
          · simp only [hd, if_true] at h
            cases h4 : dropLit (("\" />").data) cs4 with
            | none => simp only [h4] at h; exact absurd h (by simp)
            | some rest =>
              simp only [h4] at h
              cases h
              rfl
          · simp only [hd] at h
            exact absurd h (by simp)

/-- Whatever the ActivateFtpServer search returns as group 0 starts with `<`,
so it is never the string `"1"`. -/
theorem ftp_activate_g0_ne_one (content : String) (r : String × Char)
    (h : ftp_activate_search content = some r) : r.1 ≠ ("1") := by
  have hhead : r.1.data.head? = some ('<') :=
    searchFirst_prop (fun a => a.1.data.head? = some ('<')) matchActivateAt
      matchActivateAt_head content.data r h
  intro heq
  rw [heq] at hhead
  have : ('1') = ('<') := by
    have h1 : (("1") : String).data.head? = some ('1') := rfl
    rw [h1] at hhead
    exact Option.some.inj hhead
  exact absurd this (by decide)

/-- Error values absorb the scan's aggregation fold. -/
theorem scan_foldl_error {α : Type} (f : String → String → Except String (List α))
    (e : String) :
    ∀ files : List (String × String),
      files.foldl (scanExcStep f) (Except.error e) = Except.error e := by
  intro files
  induction files with
  | nil => rfl
  | cons pc rest ih => simp [List.foldl, scanExcStep, ih]

/-- With raise-free matchers the scan aggregates every file's findings. -/
theorem scan_foldl_ok {α : Type} (g : String → String → List α) :
    ∀ (files : List (String × String)) (rs : List α),
      files.foldl (scanExcStep (fun p c => Except.ok (g p c))) (Except.ok rs) =
        Except.ok (rs ++ scan_files_parallel files g) := by
  intro files
  induction files with
  | nil => intro rs; simp [scan_files_parallel]
  | cons pc rest ih =>
    intro rs
    simp [List.foldl, scanExcStep, ih, scan_files_parallel, List.append_assoc]

/-- A raising matcher anywhere in the file list makes the whole scan raise. -/
theorem scan_foldl_raises {α : Type} (f : String → String → Except String (List α))
    (pc : String × String) :
    ∀ (files : List (String × String)) (rs : List α),
      pc ∈ files → isErr (f pc.1 pc.2) = true →
        isErr (files.foldl (scanExcStep f) (Except.ok rs)) = true := by
  intro files
  induction files with
  | nil => intro rs hmem; exact absurd hmem (by simp)
  | cons x rest ih =>
    intro rs hmem herr
    rcases List.mem_cons.mp hmem with hx | hx
    · subst hx
      cases hf : f pc.1 pc.2 with
      | ok r => rw [hf] at herr; exact absurd herr (by simp [isErr])
      | error e =>
        simp [List.foldl, scanExcStep, hf, scan_foldl_error, isErr]
    · cases hf : f x.1 x.2 with
      | ok r =>
        simp only [List.foldl, scanExcStep, hf]
        exact ih (rs ++ r) hx herr
      | error e =>
        simp [List.foldl, scanExcStep, hf, scan_foldl_error, isErr]

/-- The transcript line written by `log` (severity tag uncoloured). -/
theorem log_file_line (links : List String) (m wt sev : String) :
    (log links m true wt sev).file_line =
      some ((if sev = ("") then log_message_tagged links m wt
             else ("[") ++ sev ++ ("] ") ++ log_message_tagged links m wt) ++ ("\n")) := rfl

/-- The stream chosen by `log`. -/
theorem log_stream (links : List String) (m : String) (hf : Bool) (wt sev : String) :
    (log links m hf wt sev).stream =
      if pyUpper sev = ("ERROR") then OutStream.stderr else OutStream.stdout := rfl

/-- `noEsc` distributes over string concatenation. -/
theorem noEsc_append (a b : String) : noEsc (a ++ b) = (noEsc a && noEsc b) := by
  simp [noEsc, String.data_append, List.all_append]

/-! ## Claim theorems -/

/-- Claim C1, counterexample: for content carrying
`AutomationStudio Version="4.11.0"` the check emits exactly one finding for
the file, but neither the finding's message (the bare version string) nor any
message of the batch report contains the claimed text `Version 4.11.0`. -/
theorem version_finding_lacks_version_word :
    check_file_version ("f.apj") ("<?AutomationStudio Version=\"4.11.0\"?>") =
      [(("f.apj"), ("4.11.0"))]
    ∧ containsSubstr ("4.11.0") ("Version 4.11.0") = false
    ∧ containsSubstr
        (render_compat_results
          (check_file_version ("f.apj") ("<?AutomationStudio Version=\"4.11.0\"?>")))
        ("Version 4.11.0") = false
    ∧ (compat_version_report
        (check_file_version ("f.apj") ("<?AutomationStudio Version=\"4.11.0\"?>")) false).all
        (fun lc => !containsSubstr lc.msg ("Version 4.11.0")) = true := by
  refine ⟨by decide, by decide, by decide, by decide⟩

/-- Claim C1 (amended): per descriptor file, a version starting with `4.12`
yields zero findings; a version not starting with `4.12` yields exactly one
finding whose message is the bare version string (it contains `4.11.0`, not
`Version 4.11.0`); a missing version attribute yields exactly one
`Version Unknown` finding.  The table is applied independently per file, the
results of all files are concatenated into one batch, and a non-empty batch is
reported under a MANDATORY header and MANDATORY advice line. -/
theorem version_compatibility_table :
    (∀ fp content v, version_search content = some v →
       pyStartsWith v ("4.12") = true → check_file_version fp content = [])
    ∧ (∀ fp content v, version_search content = some v →
       pyStartsWith v ("4.12") = false → check_file_version fp content = [(fp, v)])
    ∧ (∀ fp content, version_search content = none →
       check_file_version fp content = [(fp, ("Version Unknown"))])
    ∧ (∀ apj_files hw_files,
       check_files_for_compatibility apj_files hw_files =
         (apj_files ++ hw_files).flatMap (fun pc => check_file_version pc.1 pc.2))
    ∧ (∀ results verbose, results ≠ [] →
       compat_version_report results verbose =
         [⟨("The following files are incompatible with the required version:"),
            ("MANDATORY"), ("")⟩,
          ⟨render_compat_results results, (""), ("")⟩,
          ⟨("Please ensure these files are saved at least once with Automation Studio 4.12"),
            ("MANDATORY"), ("")⟩])
    ∧ check_file_version ("f.apj") ("<?AutomationStudio Version=\"4.12.3.88 SP\"?>") = []
    ∧ check_file_version ("g.hw")
        ("<Project AutomationStudio WorkingVersion=\"4.11.0\" />") =
        [(("g.hw"), ("4.11.0"))]
    ∧ check_file_version ("h.hw") ("<Hardware />") = [(("h.hw"), ("Version Unknown"))]
    ∧ containsSubstr (render_compat_results [(("f.apj"), ("4.11.0"))]) ("4.11.0") = true := by
  refine ⟨?_, ?_, ?_, ?_, ?_, by decide, by decide, by decide, by decide⟩
  · intro fp content v hv hpre
    simp [check_file_version, hv, hpre]
  · intro fp content v hv hpre
    simp [check_file_version, hv, hpre]
  · intro fp content hv
    simp [check_file_version, hv]
  · intro apj_files hw_files
    simp [check_files_for_compatibility, scan_files_parallel, List.flatMap]
  · intro results verbose hne
    have hemp : results.isEmpty = false := by
      cases results with
      | nil => exact absurd rfl hne
      | cons a l => rfl
    simp [compat_version_report, hemp]

/-- Claim C1, witness for the hypotheses of `version_compatibility_table`. -/
theorem version_compatibility_table_witness :
    version_search ("<?AutomationStudio Version=\"4.11.0\"?>") = some ("4.11.0")
    ∧ pyStartsWith ("4.11.0") ("4.12") = false
    ∧ check_file_version ("w.apj") ("<?AutomationStudio Version=\"4.11.0\"?>") =
        [(("w.apj"), ("4.11.0"))] :=
  ⟨by decide, by decide,
    version_compatibility_table.2.1 ("w.apj") ("<?AutomationStudio Version=\"4.11.0\"?>")
      ("4.11.0") (by decide) (by decide)⟩

/-- Claim C2, counterexample: both `ceil` and `floor` occur as whole words in
the same file, yet only the first table pattern is reported — there is no
`floor` finding, so it is not the case that every (pattern, file) pair with a
whole-word occurrence yields its own finding. -/
theorem single_finding_per_file :
    process_st_c_file ("prog.st") ("x := ceil(a) + floor(b);")
        [(("ceil"), ("use brmceil")), (("floor"), ("use brmfloor"))] =
      [(("ceil"), ("use brmceil"), ("prog.st"))]
    ∧ whole_word_search ("floor") ("x := ceil(a) + floor(b);") = true := by
  refine ⟨by decide, by decide⟩

/-- Claim C2 (amended): the source matcher searches each table pattern as a
case-sensitive word-boundary-delimited whole word (`ceil` does not match
inside `brmceil` but matches a standalone `ceil(`), and returns at most one
finding per file: the first matching pattern in table order — the
`file_path not in matched_files` guard dedups by file, not by
(pattern, file).  Distinct files never share dedup state: each file of a scan
contributes its own findings. -/
theorem whole_word_first_match_only :
    (∀ fp content pats,
       process_st_c_file fp content pats =
         match pats.find? (fun pr => whole_word_search pr.1 content) with
         | some pr => [(pr.1, pr.2, fp)]
         | none => [])
    ∧ whole_word_search ("ceil") ("x := brmceil(a);") = false
    ∧ whole_word_search ("ceil") ("x := ceil(a);") = true
    ∧ (∀ (g : String → String → List (String × String × String)) f1 c1 f2 c2,
       scan_files_parallel [(f1, c1), (f2, c2)] g = g f1 c1 ++ g f2 c2) := by
  refine ⟨?_, by decide, by decide, ?_⟩
  · intro fp content pats
    simpa using stcLoop_eq_find fp content pats []
  · intro g f1 c1 f2 c2
    simp [scan_files_parallel]

/-- Claim C4, counterexample: a root listing with two `.apj` files passes
validation in both validators — the first descriptor is silently used; the
claimed failure for more than one `.apj` file does not happen. -/
theorem two_apj_files_accepted :
    get_project_file true [("a.apj"), ("b.apj")] = Except.ok ("a.apj")
    ∧ get_and_check_project_file true [("a.apj"), ("b.apj")] = Except.ok ("a.apj") := by
  refine ⟨rfl, rfl⟩

/-- Claim C4 (amended): the central validation fails (error report, exit 1)
exactly when the root does not exist or contains zero `.apj` files; when one
or more `.apj` files are present the first one in directory-listing order is
used, even if several are present, and no failure occurs. -/
theorem project_root_validation :
    (∀ entries, get_project_file false entries = Except.error 1)
    ∧ (∀ entries, entries.filter (fun f => pyEndsWith f (".apj")) = [] →
       get_project_file true entries = Except.error 1)
    ∧ (∀ entries f rest, entries.filter (fun f => pyEndsWith f (".apj")) = f :: rest →
       get_project_file true entries = Except.ok f)
    ∧ (∀ entries f rest,
       entries.filter (fun f => pyEndsWith f (".apj") && !pyStartsWith f (".")) = f :: rest →
       get_and_check_project_file true entries = Except.ok (basename f)) := by
  refine ⟨?_, ?_, ?_, ?_⟩
  · intro entries; rfl
  · intro entries h; simp [get_project_file, h]
  · intro entries f rest h; simp [get_project_file, h]
  · intro entries f rest h; simp [get_and_check_project_file, h]

/-- Claim C4, witness for the hypotheses of `project_root_validation`. -/
theorem project_root_validation_witness :
    ([("x.txt"), ("a.apj"), ("b.apj")].filter (fun f => pyEndsWith f (".apj")) =
      [("a.apj"), ("b.apj")])
    ∧ get_project_file true [("x.txt"), ("a.apj"), ("b.apj")] = Except.ok ("a.apj") :=
  ⟨by decide,
    project_root_validation.2.2.1 [("x.txt"), ("a.apj"), ("b.apj")] ("a.apj") [("b.apj")]
      (by decide)⟩

/-- Claim C5, counterexample: a failing rule-table load in the shared loader
is not fatal — it returns the ordinary empty table, and a check then runs
against that empty table, producing zero findings instead of the process
aborting before any check. -/
theorem load_failure_not_fatal :
    load_file_info (Except.error ("FileNotFoundError")) = []
    ∧ process_pkg_file ("Package.pkg")
        ("<Objects><Object Type=\"Library\">AsString</Object></Objects>")
        (load_file_info (Except.error ("FileNotFoundError"))) = [] := by
  refine ⟨by decide, by decide⟩

/-- Claim C5 (amended): only the legacy analyzer's module-level loader is
fatal — any failing document makes it exit with status 1 before any check
runs; the shared `load_file_info` instead logs an ERROR and returns the empty
table, under which checks do run and silently produce no findings. -/
theorem rule_table_load_failure :
    (∀ docs d, d ∈ docs → isErr d = true →
       isErr (analyzer_load_tables docs) = true)
    ∧ (∀ e, load_file_info (Except.error e) = [])
    ∧ (∀ fp content e,
       process_pkg_file fp content (load_file_info (Except.error e)) = []) := by
  refine ⟨?_, ?_, ?_⟩
  · intro docs
    induction docs with
    | nil => intro d hd; exact absurd hd (by simp)
    | cons x rest ih =>
      intro d hd herr
      rcases List.mem_cons.mp hd with hx | hx
      · subst hx
        cases d with
        | error e => simp [analyzer_load_tables, isErr]
        | ok t => exact absurd herr (by simp [isErr])
      · cases x with
        | error e => simp [analyzer_load_tables, isErr]
        | ok t =>
          have hr := ih d hx herr
          cases hrec : analyzer_load_tables rest with
          | ok ts => rw [hrec] at hr; exact absurd hr (by simp [isErr])
          | error n => simp [analyzer_load_tables, hrec, isErr]
  · intro e; rfl
  · intro fp content e
    simp [process_pkg_file, load_file_info]

/-- Claim C5, witness for the hypotheses of `rule_table_load_failure`. -/
theorem rule_table_load_failure_witness :
    ((Except.error ("boom") : Except String RuleTable) ∈
      [Except.ok ([] : RuleTable), Except.error ("boom")])
    ∧ isErr (analyzer_load_tables [Except.ok ([] : RuleTable), Except.error ("boom")]) = true :=
  ⟨by simp,
    rule_table_load_failure.1 [Except.ok ([] : RuleTable), Except.error ("boom")]
      (Except.error ("boom")) (by simp) (by rfl)⟩

/-- Claim C8: given content whose element texts include `LibA` and `LibB`
and the rule table `{"liba": "reason1"}`, the package-descriptor matcher
returns exactly the one finding `("liba", "reason1", path)`; in general a
finding `(p, r, fp)` is produced precisely when `(p, r)` is a table entry and
some text between `>` and `<` equals `p` case-insensitively. -/
theorem pkg_matcher_case_insensitive :
    process_pkg_file ("p.pkg") ("<Objects>LibA</Objects><X>LibB</X>")
        [(("liba"), ("reason1"))] = [(("liba"), ("reason1"), ("p.pkg"))]
    ∧ (∀ fp content pats (p r : String),
       (p, r, fp) ∈ process_pkg_file fp content pats ↔
         ((p, r) ∈ pats ∧ ∃ m ∈ extract_angle content, lowerStr m = lowerStr p)) := by
  refine ⟨by decide, ?_⟩
  intro fp content pats p r
  constructor
  · intro h
    simp only [process_pkg_file, List.mem_flatMap] at h
    rcases h with ⟨m, hm, pr, hpr, hite⟩
    by_cases heq : lowerStr m = lowerStr pr.1
    · rw [if_pos heq] at hite
      rcases List.mem_singleton.mp hite with h'
      have hp : pr.1 = p := congrArg Prod.fst h'.symm
      have hr : pr.2 = r := congrArg (fun t => t.2.1) h'.symm
      refine ⟨?_, m, hm, ?_⟩
      · have : pr = (p, r) := Prod.ext hp hr
        exact this ▸ hpr
      · rw [← hp]; exact heq
    · rw [if_neg heq] at hite
      exact absurd hite (by simp)
  · rintro ⟨hpr, m, hm, heq⟩
    simp only [process_pkg_file, List.mem_flatMap]
    refine ⟨m, hm, (p, r), hpr, ?_⟩
    rw [if_pos heq]
    exact List.mem_singleton.mpr rfl

/-- Claim C3 (code-bug evidence): whenever the ActivateFtpServer parameter is
present — in particular when it is present with value 1 — the matcher returns
no findings, because the source compares the whole matched parameter tag
(`group(0)`, which always starts with `<`) against `"1"`; SYSTEM partitions
are only flagged when the parameter is absent. -/
theorem ftp_system_not_flagged_when_active :
    (∀ fp content r, ftp_activate_search content = some r →
       process_ftp_configurations fp content = [])
    ∧ ftp_activate_search ftp_hw_active =
        some (("<Parameter ID=\"ActivateFtpServer\" Value=\"1\" />"), ('1'))
    ∧ extract_ftp_partitions ftp_hw_active = [("SYSTEM")]
    ∧ process_ftp_configurations ("cpu.hw") ftp_hw_active = []
    ∧ process_ftp_configurations ("cpu.hw") ftp_hw_absent = [(("SYSTEM"), ("cpu.hw"))] := by
  refine ⟨?_, by decide, by decide, by decide, by decide⟩
  intro fp content r h
  have hne : r.1 ≠ ("1") := ftp_activate_g0_ne_one content r h
  obtain ⟨g0, d⟩ := r
  simp only [ne_eq] at hne
  simp [process_ftp_configurations, h, beq_iff_eq, hne]

/-- Claim C3, witness for the hypothesis of
`ftp_system_not_flagged_when_active`. -/
theorem ftp_system_not_flagged_witness :
    ftp_activate_search ftp_hw_inactive =
      some (("<Parameter ID=\"ActivateFtpServer\" Value=\"0\" />"), ('0'))
    ∧ process_ftp_configurations ("plc.hw") ftp_hw_inactive = [] :=
  ⟨by decide,
    ftp_system_not_flagged_when_active.1 ("plc.hw") ftp_hw_inactive
      (("<Parameter ID=\"ActivateFtpServer\" Value=\"0\" />"), ('0')) (by decide)⟩

/-- Claim C6, counterexample: in a two-file scan where the matcher raises on
one file, the scan itself raises (`Except.error` propagates) instead of
returning the findings of the other file — findings the matcher would have
produced, as the second conjunct shows. -/
theorem scan_error_discards_other_results :
    scan_files_parallel_exc [(("good.st"), ("x := ceil(1);")), (("bad.bin"), (""))]
        (fun p c =>
          if p = ("bad.bin") then Except.error ("UnicodeDecodeError")
          else Except.ok (process_st_c_file p c [(("ceil"), ("r"))])) =
      Except.error ("UnicodeDecodeError")
    ∧ process_st_c_file ("good.st") ("x := ceil(1);") [(("ceil"), ("r"))] =
        [(("ceil"), ("r"), ("good.st"))] := by
  refine ⟨rfl, by decide⟩

/-- Claim C6 (amended): the aggregation loop has no exception handling — if
any file's matcher raises, the whole scan raises; when no matcher raises,
every file contributes its findings exactly once and the scan returns their
concatenation. -/
theorem scan_fault_behaviour :
    (∀ (α : Type) (files : List (String × String)) (g : String → String → List α),
       scan_files_parallel_exc files (fun p c => Except.ok (g p c)) =
         Except.ok (scan_files_parallel files g))
    ∧ (∀ (α : Type) (files : List (String × String))
        (f : String → String → Except String (List α)) (pc : String × String),
       pc ∈ files → isErr (f pc.1 pc.2) = true →
       isErr (scan_files_parallel_exc files f) = true) := by
  refine ⟨?_, ?_⟩
  · intro α files g
    have h := scan_foldl_ok g files []
    simpa [scan_files_parallel_exc] using h
  · intro α files f pc hmem herr
    exact scan_foldl_raises f pc files [] hmem herr

/-- Claim C6, witness for the hypotheses of `scan_fault_behaviour`. -/
theorem scan_fault_behaviour_witness :
    ((("a.st"), ("")) ∈ [((("a.st") : String), (("") : String))])
    ∧ isErr (@scan_files_parallel_exc String [(("a.st"), (""))]
        (fun _ _ => Except.error ("boom"))) = true :=
  ⟨by decide,
    scan_fault_behaviour.2 String [(("a.st"), (""))] (fun _ _ => Except.error ("boom"))
      ((("a.st"), (""))) (by decide) rfl⟩

/-- Claim C7, counterexample: a message containing a URL, and a message
containing a known link string, both produce a transcript line that contains
the ANSI escape character — the transcript is not free of ANSI styling. -/
theorem transcript_contains_ansi :
    noEsc (((log [] ("More info: https://example.com") true ("") ("INFO")).file_line).getD ("")) =
      false
    ∧ noEsc (((log [("AS4 migration guide")] ("see AS4 migration guide for details")
         true ("") ("")).file_line).getD ("")) = false := by
  refine ⟨by decide, by decide⟩

/-- Claim C7 (amended): the transcript line carries the literal `[severity]`
and `[when]` tag prefixes and never the console's severity colouring, and its
message part is the same `linkify`-processed text that is shown on the
console — so it is escape-free exactly when the message needed no link
styling; messages containing URLs or known link strings are written to the
transcript with their ANSI underline styling included. -/
theorem transcript_plain_tags :
    (∀ links (m wt sev : String),
       (log links m true wt sev).file_line =
         some ((if sev = ("") then ("") else ("[") ++ sev ++ ("] ")) ++
           ((if wt = ("") then ("") else ("[") ++ wt ++ ("] ")) ++
             (linkify links m ++ ("\n")))))
    ∧ (∀ links (m wt sev : String), linkify links m = m →
       noEsc m = true → noEsc wt = true → noEsc sev = true →
       ∃ s, (log links m true wt sev).file_line = some s ∧ noEsc s = true) := by
  have h1 : noEsc ("[") = true := by decide
  have h2 : noEsc ("] ") = true := by decide
  have h3 : noEsc ("\n") = true := by decide
  have h4 : noEsc ("") = true := by decide
  refine ⟨?_, ?_⟩
  · intro links m wt sev
    rw [log_file_line]
    unfold log_message_tagged
    by_cases hs : sev = ("") <;> by_cases hw : wt = ("") <;>
      simp [hs, hw, String.append_assoc]
  · intro links m wt sev hlink hm hwt hsev
    refine ⟨_, log_file_line links m wt sev, ?_⟩
    unfold log_message_tagged
    rw [hlink]
    by_cases hs : sev = ("") <;> by_cases hw : wt = ("") <;>
      simp [hs, hw, noEsc_append, hm, hwt, hsev, h1, h2, h3, h4]

/-- Claim C7, witness for the hypotheses of `transcript_plain_tags`. -/
theorem transcript_plain_tags_witness :
    linkify [] ("hello") = ("hello")
    ∧ ∃ s, (log [] ("hello") true ("AS6") ("INFO")).file_line = some s ∧ noEsc s = true :=
  ⟨by decide,
    transcript_plain_tags.2 [] ("hello") ("AS6") ("INFO") (by decide) (by decide)
      (by decide) (by decide)⟩

set_option maxRecDepth 8192 in
/-- Claim C9: the file-device matcher flags exactly the extracted
(FileDeviceName, FileDevicePath) parameter pairs whose path starts
case-insensitively with `C:\`, `D:\`, `E:\` or `F:\`; concretely,
`C:\Temp\x` and `f:\data` are flagged while `USER_PATH:\x` and
`Temp\Simulation\y` are not. -/
theorem file_device_drive_letter_flagging :
    (∀ fp content (nm pth : String),
       (nm, pth, fp) ∈ process_file_devices fp content ↔
         ((nm, pth) ∈ extract_file_devices content ∧ starts_with_drive pth = true))
    ∧ starts_with_drive ("C:\\Temp\\x") = true
    ∧ starts_with_drive ("USER_PATH:\\x") = false
    ∧ starts_with_drive ("Temp\\Simulation\\y") = false
    ∧ process_file_devices ("cfg.hw") hw_file_devices =
        [(("DevC"), ("C:\\Temp\\x"), ("cfg.hw")), (("DevF"), ("f:\\data"), ("cfg.hw"))] := by
  refine ⟨?_, by decide, by decide, by decide, by decide⟩
  intro fp content nm pth
  constructor
  · intro h
    have h' := (mem_dedupL _ _).mp h
    rcases List.mem_map.mp h' with ⟨np, hnp, heq⟩
    obtain ⟨hmem, hdrive⟩ := List.mem_filter.mp hnp
    have hp1 : np.1 = nm := congrArg Prod.fst heq
    have hp2 : np.2 = pth := congrArg (fun t => t.2.1) heq
    refine ⟨?_, ?_⟩
    · have hnp' : np = (nm, pth) := Prod.ext hp1 hp2
      exact hnp' ▸ hmem
    · rw [← hp2]; exact hdrive
  · rintro ⟨hmem, hdrive⟩
    apply (mem_dedupL _ _).mpr
    apply List.mem_map.mpr
    refine ⟨(nm, pth), ?_, rfl⟩
    exact List.mem_filter.mpr ⟨hmem, hdrive⟩

/-- Claim C10: the console line goes to the standard error stream exactly
when the severity, compared case-insensitively, equals ERROR, and to
standard output otherwise (including the empty severity); when a transcript
file is given, the severity-uncoloured line is written to it in either case,
and nothing is written without one. -/
theorem log_stream_selection :
    (∀ links (m : String) (hf : Bool) (wt sev : String),
       ((log links m hf wt sev).stream = OutStream.stderr ↔ pyUpper sev = ("ERROR"))
       ∧ (log links m true wt sev).file_line =
           some ((if sev = ("") then log_message_tagged links m wt
                  else ("[") ++ sev ++ ("] ") ++ log_message_tagged links m wt) ++ ("\n"))
       ∧ (log links m false wt sev).file_line = none)
    ∧ (log [] ("x") false ("") ("error")).stream = OutStream.stderr
    ∧ (log [] ("x") false ("") ("Warning")).stream = OutStream.stdout
    ∧ (log [] ("x") false ("") ("")).stream = OutStream.stdout := by
  refine ⟨?_, by decide, by decide, by decide⟩
  intro links m hf wt sev
  refine ⟨?_, log_file_line links m wt sev, rfl⟩
  by_cases h : pyUpper sev = ("ERROR")
  · simp [log_stream, h]
  · simp [log_stream, h]

end Mig
